import Mathlib

/-!
Verification of the optimistic-execution scheduler
(`server/v2/cometbft/oe/optimistic_execution.go`).

Shallow embedding conventions:
* Byte slices are `List Nat`; `bytes.Equal` is list equality.
* ABCI payload types the scheduler copies verbatim but never inspects
  (`CommitInfo`, misbehavior evidence, `server.BlockResponse`,
  `store.WriterMap`) are opaque `Nat` handles.
* The Go `context.Context` created by `Execute` is modelled by two fields:
  `cancelFunc : Bool` (whether a cancel function has been installed) and
  `ctxCancelled : Bool` (whether that cancel function has been invoked).
* The one-shot stop channel is `ChanState`: absent (`nilCh`, the zero value),
  allocated-and-open (`openCh`), or closed (`closedCh`).
* A blocking operation (`Abort`, `WaitResult`) is a function returning
  `Option`: `none` means the call has not returned yet (it is still blocked
  on the stop channel, or panicked on a nil dereference where noted).
* The background goroutine body (lines 111-127 of the source) is the state
  transformer `taskFinish`: it runs the finalize function on the cancellation
  flag it observes, stores the wrapped response and the error, and closes the
  stop channel; in the source the stores and the close happen inside one
  critical section, so they form one atomic step here.
-/

/-- Byte slice. -/
abbrev Bytes := List Nat

/-- Opaque handle for `abci.CommitInfo`, copied verbatim by `Execute`. -/
abbrev CommitInfo := Nat

/-- Opaque handle for one `abci.Misbehavior` entry, copied verbatim. -/
abbrev MisbehaviorEv := Nat

/-- Opaque handle for `server.BlockResponse`. -/
abbrev BlockResponse := Nat

/-- Opaque handle for `store.WriterMap`. -/
abbrev WriterMap := Nat

/-- Go `error` values, compared only for presence and identity. -/
abbrev GoError := String

/-- A structured logger is its list of attached key/value pairs. -/
abbrev Logger := List (String × String)

/-- `log.ModuleKey`. -/
def ModuleKey : String := "module"

/-- `logger.With(key, value)` attaches one key/value pair. -/
def Logger.With (l : Logger) (k v : String) : Logger := l ++ [(k, v)]

/-- `abci.ProcessProposalRequest`, restricted to the fields `Execute` reads. -/
structure ProcessProposalRequest where
  Txs : List Bytes
  ProposedLastCommit : CommitInfo
  Misbehavior : List MisbehaviorEv
  Hash : Bytes
  Height : Int
  Time : Int
  NextValidatorsHash : Bytes
  ProposerAddress : Bytes
  deriving DecidableEq

/-- `abci.FinalizeBlockRequest`, restricted to the fields `Execute` writes. -/
structure FinalizeBlockRequest where
  Txs : List Bytes
  DecidedLastCommit : CommitInfo
  Misbehavior : List MisbehaviorEv
  Hash : Bytes
  Height : Int
  Time : Int
  NextValidatorsHash : Bytes
  ProposerAddress : Bytes
  deriving DecidableEq

/-- The wrapper stored by the goroutine (`FinalizeBlockResponse[T]`).
`Resp` is a Go pointer, hence an `Option`. -/
structure FinalizeBlockResponse (T : Type) where
  Resp : Option BlockResponse
  StateChanges : WriterMap
  DecodedTxs : List T

/-- `FinalizeBlockFunc[T]`: the finalize entry point. Its first argument is
the cancellation flag of the derived context at the moment the function
observes it (cooperative cancellation); its second is the possibly-nil
request pointer it is handed. -/
abbrev FinalizeBlockFunc (T : Type) :=
  Bool → Option FinalizeBlockRequest →
    Option BlockResponse × WriterMap × List T × Option GoError

/-- State of the one-shot stop channel. -/
inductive ChanState where
  | nilCh
  | openCh
  | closedCh
  deriving DecidableEq

/-- The `OptimisticExecution[T]` struct. The mutex is not a field here:
each critical section of the source is one atomic transformer, and which
accesses happen under the lock is recorded separately (`accesses` below). -/
structure OptimisticExecution (T : Type) where
  finalizeBlockFunc : FinalizeBlockFunc T
  logger : Logger
  stopCh : ChanState := ChanState.nilCh
  request : Option FinalizeBlockRequest := none
  response : Option (FinalizeBlockResponse T) := none
  err : Option GoError := none
  cancelFunc : Bool := false
  ctxCancelled : Bool := false
  initialized : Bool := false
  abortRate : Int := 0

variable {T : Type}

/-- `NewOptimisticExecution`: attaches the module key to the logger, builds
the zero-valued struct and applies the options in order. -/
def NewOptimisticExecution (logger : Logger) (fn : FinalizeBlockFunc T)
    (opts : List (OptimisticExecution T → OptimisticExecution T)) :
    OptimisticExecution T :=
  opts.foldl (fun oe opt => opt oe)
    { finalizeBlockFunc := fn
      logger := logger.With ModuleKey "oe" }

/-- `WithAbortRate`: option setting the test abort rate. -/
def WithAbortRate (rate : Int) :
    OptimisticExecution T → OptimisticExecution T :=
  fun oe => { oe with abortRate := rate }

/-- `Reset`: clears request, response, error and the flag (one critical
section). -/
def OptimisticExecution.Reset (oe : OptimisticExecution T) :
    OptimisticExecution T :=
  { oe with request := none, response := none, err := none,
            initialized := false }

/-- `Initialized`: nil-receiver tolerant read of the flag. -/
def Initialized : Option (OptimisticExecution T) → Bool
  | none => false
  | some oe => oe.initialized

/-- `Execute`: allocates a fresh open stop channel, snapshots the proposal
into a `FinalizeBlockRequest`, installs a fresh (uncancelled) cancel
function and sets the flag. The spawned goroutine body is `taskFinish`. -/
def OptimisticExecution.Execute (oe : OptimisticExecution T)
    (req : ProcessProposalRequest) : OptimisticExecution T :=
  { oe with
    stopCh := ChanState.openCh
    request := some
      { Txs := req.Txs
        DecidedLastCommit := req.ProposedLastCommit
        Misbehavior := req.Misbehavior
        Hash := req.Hash
        Height := req.Height
        Time := req.Time
        NextValidatorsHash := req.NextValidatorsHash
        ProposerAddress := req.ProposerAddress }
    cancelFunc := true
    ctxCancelled := false
    initialized := true }

/-- The goroutine body spawned by `Execute`: run the finalize function on
the observed cancellation flag and request pointer, then (in one critical
section) store the wrapped response and the error and close the channel. -/
def taskFinish (oe : OptimisticExecution T) : OptimisticExecution T :=
  let out := oe.finalizeBlockFunc oe.ctxCancelled oe.request
  { oe with
    response := some
      { Resp := out.1, StateChanges := out.2.1, DecodedTxs := out.2.2.1 }
    err := out.2.2.2
    stopCh := ChanState.closedCh }

/-- Invoking `oe.cancelFunc()`: `none` models the panic of calling a nil
function value. -/
def callCancel (oe : OptimisticExecution T) : Option (OptimisticExecution T) :=
  if oe.cancelFunc then some { oe with ctxCancelled := true } else none

/-- `AbortIfNeeded` body past the nil-receiver check, given the drawn value
`r` of `rand.Intn(100)`. `none` models the nil dereference of
`oe.request.Hash` when no request is stored. -/
def AbortIfNeededNN (oe : OptimisticExecution T) (reqHash : Bytes) (r : Nat) :
    Option (Bool × OptimisticExecution T) :=
  match oe.request with
  | none => none
  | some req =>
    if req.Hash = reqHash then
      if 0 < oe.abortRate ∧ (r : Int) < oe.abortRate then
        (callCancel oe).map (fun s => (true, s))
      else
        some (false, oe)
    else
      (callCancel oe).map (fun s => (true, s))

/-- `AbortIfNeeded` with its nil-receiver guard. -/
def AbortIfNeeded (oe : Option (OptimisticExecution T)) (reqHash : Bytes)
    (r : Nat) : Option (Bool × Option (OptimisticExecution T)) :=
  match oe with
  | none => some (false, none)
  | some o => (AbortIfNeededNN o reqHash r).map (fun p => (p.1, some p.2))

/-- `Abort`: returns immediately on a nil receiver or a nil cancel function;
otherwise cancels and blocks on the stop channel (`none` = still blocked,
which includes receiving on a nil channel). -/
def Abort : Option (OptimisticExecution T) →
    Option (Option (OptimisticExecution T))
  | none => some none
  | some oe =>
    if oe.cancelFunc = false then some (some oe)
    else if oe.stopCh = ChanState.closedCh then
      some (some { oe with ctxCancelled := true })
    else none

/-- `WaitResult`: blocks on the stop channel, then reads the response and
error fields (without the lock) and leaves the state untouched. -/
def WaitResult (oe : OptimisticExecution T) :
    Option ((Option (FinalizeBlockResponse T) × Option GoError) ×
      OptimisticExecution T) :=
  match oe.stopCh with
  | ChanState.closedCh => some ((oe.response, oe.err), oe)
  | _ => none

/-- A run is outstanding when the stop channel has been allocated by
`Execute` but the goroutine has not yet closed it. -/
def runOutstanding (oe : OptimisticExecution T) : Bool :=
  match oe.stopCh with
  | ChanState.openCh => true
  | _ => false

/- ## Two-thread trace model for the Abort path -/

/-- Program counter of a foreground `Abort` call. -/
inductive AbortPC where
  | notCalled
  | waiting
  | returned
  deriving DecidableEq

/-- Configuration: shared struct, whether the goroutine is still running,
and the `Abort` caller's program counter. -/
structure Conf (T : Type) where
  oe : OptimisticExecution T
  taskRunning : Bool
  abortPC : AbortPC

/-- Interleaving of the background goroutine with one `Abort` call.
`taskDone` is the goroutine's critical section (store result, close
channel). `abortNoCancel` is the early return on a nil cancel function;
`abortCancel` invokes the cancel function; `abortReturn` completes the
receive on the stop channel, enabled only once the channel is closed. -/
inductive OEStep : Conf T → Conf T → Prop
  | taskDone (c : Conf T) (h : c.taskRunning = true) :
      OEStep c { oe := taskFinish c.oe, taskRunning := false,
                 abortPC := c.abortPC }
  | abortNoCancel (c : Conf T) (h1 : c.abortPC = AbortPC.notCalled)
      (h2 : c.oe.cancelFunc = false) :
      OEStep c { oe := c.oe, taskRunning := c.taskRunning,
                 abortPC := AbortPC.returned }
  | abortCancel (c : Conf T) (h1 : c.abortPC = AbortPC.notCalled)
      (h2 : c.oe.cancelFunc = true) :
      OEStep c { oe := { c.oe with ctxCancelled := true },
                 taskRunning := c.taskRunning, abortPC := AbortPC.waiting }
  | abortReturn (c : Conf T) (h1 : c.abortPC = AbortPC.waiting)
      (h2 : c.oe.stopCh = ChanState.closedCh) :
      OEStep c { oe := c.oe, taskRunning := c.taskRunning,
                 abortPC := AbortPC.returned }

/-- Inductive invariant of the Abort/goroutine interleaving, starting from
a post-`Execute` configuration. -/
def OEInv (c : Conf T) : Prop :=
  c.oe.cancelFunc = true ∧
  (c.taskRunning = true → c.oe.stopCh = ChanState.openCh) ∧
  (c.taskRunning = false →
    c.oe.stopCh = ChanState.closedCh ∧ c.oe.response.isSome = true) ∧
  (c.abortPC ≠ AbortPC.notCalled → c.oe.ctxCancelled = true) ∧
  (c.abortPC = AbortPC.returned → c.taskRunning = false)

/- ## Lock-discipline model (which field accesses hold the mutex) -/

/-- Fields of the struct shared with the goroutine. -/
inductive OEField where
  | request
  | response
  | err
  | initializedF
  | cancelFuncF
  | stopChF
  | abortRateF
  deriving DecidableEq

/-- One action of a method body: a field access, or the call of the
finalize function; each is tagged with whether the mutex is held. -/
inductive OEAccess where
  | access (f : OEField) (lockHeld : Bool)
  | callFinalize (lockHeld : Bool)
  deriving DecidableEq

/-- The method bodies of the source file. -/
inductive OEMethod where
  | initializedM
  | executeM
  | resetM
  | abortIfNeededM
  | abortM
  | waitResultM
  | goroutineM
  deriving DecidableEq

/-- Field accesses of each method in program order, transcribed from the
source: `Initialized` (lines 79-87), `Execute` (90-109), the goroutine
body (111-127: the request read at 113 and the finalize call are before
the `Lock()` at 115), `Reset` (68-75), `AbortIfNeeded` (132-153),
`Abort` (156-163, no lock at all) and `WaitResult` (166-169, no lock at
all). -/
def accesses : OEMethod → List OEAccess
  | OEMethod.initializedM =>
      [OEAccess.access OEField.initializedF true]
  | OEMethod.executeM =>
      [OEAccess.access OEField.stopChF true,
       OEAccess.access OEField.request true,
       OEAccess.access OEField.cancelFuncF true,
       OEAccess.access OEField.initializedF true]
  | OEMethod.resetM =>
      [OEAccess.access OEField.request true,
       OEAccess.access OEField.response true,
       OEAccess.access OEField.err true,
       OEAccess.access OEField.initializedF true]
  | OEMethod.abortIfNeededM =>
      [OEAccess.access OEField.request true,
       OEAccess.access OEField.abortRateF true,
       OEAccess.access OEField.cancelFuncF true]
  | OEMethod.abortM =>
      [OEAccess.access OEField.cancelFuncF false,
       OEAccess.access OEField.stopChF false]
  | OEMethod.waitResultM =>
      [OEAccess.access OEField.stopChF false,
       OEAccess.access OEField.response false,
       OEAccess.access OEField.err false]
  | OEMethod.goroutineM =>
      [OEAccess.access OEField.request false,
       OEAccess.callFinalize false,
       OEAccess.access OEField.request true,
       OEAccess.access OEField.response true,
       OEAccess.access OEField.err true,
       OEAccess.access OEField.stopChF true]

/-- The four fields the concurrency claim is about. -/
def lockedFieldSet : OEField → Bool
  | OEField.request => true
  | OEField.response => true
  | OEField.err => true
  | OEField.initializedF => true
  | _ => false

/-- The unlocked accesses to those four fields that the source actually
contains: `WaitResult` reads response and err after the channel fires, and
the goroutine reads request before taking the lock. -/
def unlockedAllowed : OEMethod → OEAccess → Bool
  | OEMethod.waitResultM, OEAccess.access OEField.response false => true
  | OEMethod.waitResultM, OEAccess.access OEField.err false => true
  | OEMethod.goroutineM, OEAccess.access OEField.request false => true
  | _, _ => false

/-- All method bodies. -/
def methodsList : List OEMethod :=
  [OEMethod.initializedM, OEMethod.executeM, OEMethod.resetM,
   OEMethod.abortIfNeededM, OEMethod.abortM, OEMethod.waitResultM,
   OEMethod.goroutineM]

/-- One action respects the amended lock discipline: accesses to the four
shared fields are under the lock except the three listed unlocked reads,
and the finalize function is never called with the lock held. -/
def okAction (m : OEMethod) : OEAccess → Bool
  | OEAccess.access f lh =>
      !(lockedFieldSet f) || lh || unlockedAllowed m (OEAccess.access f lh)
  | OEAccess.callFinalize lh => !lh

/- ## Concrete states used by counterexamples and witnesses -/

/-- A trivial finalize function. -/
def fnEx : FinalizeBlockFunc Unit := fun _ _ => (none, 0, [], none)

/-- A concrete proposal request. -/
def reqEx : ProcessProposalRequest :=
  { Txs := []
    ProposedLastCommit := 0
    Misbehavior := []
    Hash := [0]
    Height := 1
    Time := 0
    NextValidatorsHash := []
    ProposerAddress := [] }

/-- A freshly constructed scheduler. -/
def oeEx : OptimisticExecution Unit := NewOptimisticExecution [] fnEx []

/- ## Theorems -/

/-- The options produced by `WithAbortRate` change only the abort rate, so
folding them over any state leaves the lifecycle fields alone. -/
lemma foldl_withAbortRate_frame (rates : List Int)
    (o : OptimisticExecution T) :
    ((rates.map WithAbortRate).foldl (fun a f => f a) o).request = o.request ∧
    ((rates.map WithAbortRate).foldl (fun a f => f a) o).response = o.response ∧
    ((rates.map WithAbortRate).foldl (fun a f => f a) o).err = o.err ∧
    ((rates.map WithAbortRate).foldl (fun a f => f a) o).initialized
      = o.initialized := by
  induction rates generalizing o with
  | nil => exact ⟨rfl, rfl, rfl, rfl⟩
  | cons a as ih =>
    simpa [WithAbortRate] using ih { o with abortRate := a }

/-- C4: a freshly constructed scheduler (under any list of abort-rate
options) is empty: `Initialized` is false and request, response and error
are absent; `Execute req` sets the flag and stores a snapshot whose fields
equal the proposal's, with `DecidedLastCommit` taken from
`ProposedLastCommit`; `Reset` clears request, response, error and the
flag. -/
theorem lifecycle_new_execute_reset (logger : Logger)
    (fn : FinalizeBlockFunc T) (rates : List Int)
    (req : ProcessProposalRequest) (s : OptimisticExecution T) :
    (Initialized (some (NewOptimisticExecution logger fn
        (rates.map WithAbortRate))) = false ∧
      (NewOptimisticExecution logger fn (rates.map WithAbortRate)).request
        = none ∧
      (NewOptimisticExecution logger fn (rates.map WithAbortRate)).response
        = none ∧
      (NewOptimisticExecution logger fn (rates.map WithAbortRate)).err
        = none) ∧
    ((s.Execute req).initialized = true ∧
      (s.Execute req).request = some
        { Txs := req.Txs
          DecidedLastCommit := req.ProposedLastCommit
          Misbehavior := req.Misbehavior
          Hash := req.Hash
          Height := req.Height
          Time := req.Time
          NextValidatorsHash := req.NextValidatorsHash
          ProposerAddress := req.ProposerAddress }) ∧
    (s.Reset.request = none ∧ s.Reset.response = none ∧
      s.Reset.err = none ∧ s.Reset.initialized = false) := by
  obtain ⟨h1, h2, h3, h4⟩ := foldl_withAbortRate_frame (T := T) rates
    { finalizeBlockFunc := fn, logger := logger.With ModuleKey "oe" }
  refine ⟨⟨?_, ?_, ?_, ?_⟩, ⟨rfl, rfl⟩, rfl, rfl, rfl, rfl⟩
  · simpa [NewOptimisticExecution, Initialized] using h4
  · simpa [NewOptimisticExecution] using h1
  · simpa [NewOptimisticExecution] using h2
  · simpa [NewOptimisticExecution] using h3

/-- C8: on a nil receiver, `Initialized` returns false, `AbortIfNeeded`
returns false for every hash and random draw, and `Abort` returns with no
effect; none of the three panics. -/
theorem nil_receiver_safe (T : Type) (h : Bytes) (r : Nat) :
    Initialized (none : Option (OptimisticExecution T)) = false ∧
    AbortIfNeeded (none : Option (OptimisticExecution T)) h r
      = some (false, none) ∧
    Abort (none : Option (OptimisticExecution T)) = some none :=
  ⟨rfl, rfl, rfl⟩

/-- C9: `Reset` leaves the cancel function, the context-cancellation flag,
the stop channel, the finalize function, the logger and the abort rate
unchanged, and `Abort` after `Reset` behaves exactly like `Abort` on the
un-reset state (same cancellation, same blocking on the previous run's
stop channel), up to the four cleared fields. -/
theorem reset_frame_effects (s : OptimisticExecution T) :
    s.Reset.cancelFunc = s.cancelFunc ∧
    s.Reset.ctxCancelled = s.ctxCancelled ∧
    s.Reset.stopCh = s.stopCh ∧
    s.Reset.finalizeBlockFunc = s.finalizeBlockFunc ∧
    s.Reset.logger = s.logger ∧
    s.Reset.abortRate = s.abortRate ∧
    Abort (some s.Reset)
      = (Abort (some s)).map (Option.map OptimisticExecution.Reset) := by
  refine ⟨rfl, rfl, rfl, rfl, rfl, rfl, ?_⟩
  by_cases hc : s.cancelFunc = false
  · simp [Abort, OptimisticExecution.Reset, hc]
  · by_cases hs : s.stopCh = ChanState.closedCh
    · simp [Abort, OptimisticExecution.Reset, hc, hs]
    · simp [Abort, OptimisticExecution.Reset, hc, hs]

/-- C10: whenever the goroutine completes, the stored response wrapper is
non-nil — also when the finalize function returned an error — and wraps
exactly the function's three outputs, the stored error is exactly the
function's error, and `WaitResult` then returns this pair; a nil response
with a nil error is impossible. -/
theorem taskFinish_response_nonnil (T : Type) :
    (∀ s : OptimisticExecution T,
      (taskFinish s).response.isSome = true ∧
      (taskFinish s).response = some
        { Resp := (s.finalizeBlockFunc s.ctxCancelled s.request).1
          StateChanges := (s.finalizeBlockFunc s.ctxCancelled s.request).2.1
          DecodedTxs := (s.finalizeBlockFunc s.ctxCancelled s.request).2.2.1 } ∧
      (taskFinish s).err
        = (s.finalizeBlockFunc s.ctxCancelled s.request).2.2.2) ∧
    (∀ s : OptimisticExecution T,
      WaitResult (taskFinish s)
        = some (((taskFinish s).response, (taskFinish s).err),
            taskFinish s)) :=
  ⟨fun _ => ⟨rfl, rfl, rfl⟩, fun _ => rfl⟩

/-- C3: `WaitResult` on a freshly started run blocks; once the goroutine
has completed it returns exactly the captured response/error pair produced
by the finalize function and leaves the state untouched, so a repeated
call (no intervening `Reset`/`Execute`) returns the same captured pair. -/
theorem waitResult_blocks_and_repeats (oe : OptimisticExecution T)
    (req : ProcessProposalRequest) :
    WaitResult (oe.Execute req) = none ∧
    WaitResult (taskFinish (oe.Execute req))
      = some (((taskFinish (oe.Execute req)).response,
               (taskFinish (oe.Execute req)).err),
              taskFinish (oe.Execute req)) ∧
    (taskFinish (oe.Execute req)).response = some
      { Resp := (oe.finalizeBlockFunc false ((oe.Execute req).request)).1
        StateChanges :=
          (oe.finalizeBlockFunc false ((oe.Execute req).request)).2.1
        DecodedTxs :=
          (oe.finalizeBlockFunc false ((oe.Execute req).request)).2.2.1 } ∧
    (taskFinish (oe.Execute req)).err
      = (oe.finalizeBlockFunc false ((oe.Execute req).request)).2.2.2 ∧
    (∀ s : OptimisticExecution T,
      (WaitResult s).bind (fun rs => WaitResult rs.2) = WaitResult s) := by
  refine ⟨rfl, rfl, rfl, rfl, fun s => ?_⟩
  unfold WaitResult
  cases h : s.stopCh <;> simp [h]

/-- C5 counterexample: at a concrete post-`Execute` state the run is still
outstanding (the stop channel is open) and the stored request and the flag
are present, yet `Reset` proceeds and clears request, response, error and
the flag — it does not refuse, so resetting during an outstanding run is
not structurally impossible. -/
theorem reset_no_refusal_counterexample :
    runOutstanding (oeEx.Execute reqEx) = true ∧
    (oeEx.Execute reqEx).request.isSome = true ∧
    (oeEx.Execute reqEx).initialized = true ∧
    (oeEx.Execute reqEx).Reset.request = none ∧
    (oeEx.Execute reqEx).Reset.response = none ∧
    (oeEx.Execute reqEx).Reset.err = none ∧
    (oeEx.Execute reqEx).Reset.initialized = false :=
  ⟨rfl, rfl, rfl, rfl, rfl, rfl, rfl⟩

/-- C5 amended: `Reset` performs no outstanding-run check at all — even
while a run is outstanding it unconditionally clears request, response,
error and the flag, leaves the stop channel alone, and the run stays
outstanding afterwards; safety is the caller's burden, not enforced
structurally. -/
theorem reset_clears_while_outstanding (s : OptimisticExecution T)
    (h : runOutstanding s = true) :
    s.Reset.request = none ∧ s.Reset.response = none ∧
    s.Reset.err = none ∧ s.Reset.initialized = false ∧
    s.Reset.stopCh = s.stopCh ∧ runOutstanding s.Reset = true :=
  ⟨rfl, rfl, rfl, rfl, rfl, h⟩

/-- C5 amended witness: the amended statement at the concrete outstanding
state of the counterexample. -/
theorem reset_clears_while_outstanding_witness :
    runOutstanding (oeEx.Execute reqEx) = true ∧
    ((oeEx.Execute reqEx).Reset.request = none ∧
     (oeEx.Execute reqEx).Reset.response = none ∧
     (oeEx.Execute reqEx).Reset.err = none ∧
     (oeEx.Execute reqEx).Reset.initialized = false ∧
     (oeEx.Execute reqEx).Reset.stopCh = (oeEx.Execute reqEx).stopCh ∧
     runOutstanding (oeEx.Execute reqEx).Reset = true) :=
  ⟨rfl, reset_clears_while_outstanding (oeEx.Execute reqEx) rfl⟩

/-- C6: `Abort` is idempotent — running it again on the state it returned
yields that same state (expressed with `bind`), calling it when no cancel
function is installed is a no-op that returns immediately, and the
nil-receiver call returns immediately; every case is a total, terminating
computation (no panic), and no returning case blocks. -/
theorem abort_idempotent_noop (T : Type) :
    (∀ oe : Option (OptimisticExecution T),
      (Abort oe).bind Abort = Abort oe) ∧
    (∀ oe : OptimisticExecution T, oe.cancelFunc = false →
      Abort (some oe) = some (some oe)) ∧
    Abort (none : Option (OptimisticExecution T)) = some none := by
  refine ⟨fun oe => ?_, fun oe h => by simp [Abort, h], rfl⟩
  match oe with
  | none => rfl
  | some o =>
    by_cases hc : o.cancelFunc = false
    · simp [Abort, hc]
    · by_cases hs : o.stopCh = ChanState.closedCh
      · simp [Abort, hc, hs]
      · simp [Abort, hc, hs]

/-- C6 witness: the idempotence and the nothing-running no-op at the
concrete freshly constructed scheduler (no cancel function installed). -/
theorem abort_idempotent_noop_witness :
    oeEx.cancelFunc = false ∧
    Abort (some oeEx) = some (some oeEx) ∧
    (Abort (some oeEx)).bind Abort = Abort (some oeEx) :=
  ⟨rfl, (abort_idempotent_noop Unit).2.1 oeEx rfl,
   (abort_idempotent_noop Unit).1 (some oeEx)⟩

/-- C7 counterexample: the source contains accesses to the shared
request/response/error fields that do NOT hold the exclusion lock —
`WaitResult` reads response and err with no lock, and the goroutine reads
request before taking the lock — so the claim that every access to those
fields holds the lock is false. -/
theorem waitResult_unlocked_access_counterexample :
    OEAccess.access OEField.response false ∈ accesses OEMethod.waitResultM ∧
    OEAccess.access OEField.err false ∈ accesses OEMethod.waitResultM ∧
    OEAccess.access OEField.request false ∈ accesses OEMethod.goroutineM ∧
    lockedFieldSet OEField.response = true ∧
    lockedFieldSet OEField.err = true ∧
    lockedFieldSet OEField.request = true := by
  decide

/-- C7 amended: every access to the shared request, response, error and
initialized fields by `Initialized`, `Execute`, `Reset`, `AbortIfNeeded`,
`WaitResult` and the goroutine holds the lock, EXCEPT `WaitResult`'s reads
of response and err (made safe by the prior receive on the closed stop
channel) and the goroutine's read of request before it takes the lock; and
the lock is never held while the finalize function itself executes. -/
theorem lock_discipline_amended :
    (methodsList.all fun m => (accesses m).all fun a => okAction m a)
      = true := by
  decide

/-- C1: on a scheduler on which `Execute reqA` has been called,
`AbortIfNeeded h r` (with `r` the drawn value of `rand.Intn(100)`) returns
true and invokes the cancel function exactly when `h` differs byte-wise
from the stored request hash or the test abort-rate draw fires; it returns
false and leaves the (uncancelled) run untouched exactly when `h` matches
and the draw does not fire — in particular always when the abort rate is
zero. -/
theorem abortIfNeeded_mismatch_or_rate (oe : OptimisticExecution T)
    (reqA : ProcessProposalRequest) (h : Bytes) (r : Nat) :
    (AbortIfNeeded (some (oe.Execute reqA)) h r
        = some (true, some { oe.Execute reqA with ctxCancelled := true })
      ↔ (h ≠ reqA.Hash ∨ (0 < oe.abortRate ∧ (r : Int) < oe.abortRate))) ∧
    (AbortIfNeeded (some (oe.Execute reqA)) h r
        = some (false, some (oe.Execute reqA))
      ↔ (h = reqA.Hash ∧
          ¬(0 < oe.abortRate ∧ (r : Int) < oe.abortRate))) ∧
    (oe.Execute reqA).ctxCancelled = false := by
  refine ⟨?_, ?_, rfl⟩ <;>
    by_cases hH : reqA.Hash = h <;>
      by_cases hR : 0 < oe.abortRate ∧ (r : Int) < oe.abortRate <;>
        simp [AbortIfNeeded, AbortIfNeededNN, OptimisticExecution.Execute,
              callCancel, hH, hR, eq_comm] <;>
          exact fun hhh => hH hhh.symm

/-- Each interleaving step of the goroutine with one `Abort` call preserves
the invariant. -/
lemma oeInv_step {c c' : Conf T} (hs : OEStep c c') (hI : OEInv c) :
    OEInv c' := by
  obtain ⟨hcf, hopen, hdone, hcancel, hretn⟩ := hI
  cases hs with
  | taskDone h =>
    refine ⟨hcf, ?_, ?_, ?_, ?_⟩
    · intro hc; simp at hc
    · intro _; exact ⟨rfl, rfl⟩
    · intro hne; exact hcancel hne
    · intro _; rfl
  | abortNoCancel h1 h2 =>
    rw [h2] at hcf; cases hcf
  | abortCancel h1 h2 =>
    refine ⟨hcf, hopen, hdone, fun _ => rfl, fun hr => ?_⟩
    simp at hr
  | abortReturn h1 h2 =>
    have hnr : c.taskRunning = false := by
      cases htr : c.taskRunning
      · rfl
      · exact absurd ((hopen htr).symm.trans h2) (by simp)
    refine ⟨hcf, fun hr => absurd (hnr ▸ hr) (by simp), hdone, ?_, fun _ => hnr⟩
    intro _
    exact hcancel (by rw [h1]; simp)

/-- The invariant holds along every execution from a state satisfying it. -/
lemma oeInv_reachable {c0 c : Conf T}
    (htrace : Relation.ReflTransGen OEStep c0 c) (h0 : OEInv c0) :
    OEInv c := by
  induction htrace with
  | refl => exact h0
  | tail _ hstep ih => exact oeInv_step hstep ih

/-- C2: starting from a configuration where `Execute` has just started the
goroutine, any interleaving in which the `Abort` call has returned has the
cancel function invoked, the stop channel closed, the goroutine finished
and its result already stored — `Abort` never returns while the goroutine
might still be storing its result. -/
theorem abort_waits_for_completion (oe : OptimisticExecution T)
    (req : ProcessProposalRequest) (c : Conf T)
    (htrace : Relation.ReflTransGen OEStep
      { oe := oe.Execute req, taskRunning := true,
        abortPC := AbortPC.notCalled } c)
    (hret : c.abortPC = AbortPC.returned) :
    c.oe.ctxCancelled = true ∧ c.oe.stopCh = ChanState.closedCh ∧
    c.taskRunning = false ∧ c.oe.response.isSome = true := by
  have h0 : OEInv (T := T)
      { oe := oe.Execute req, taskRunning := true,
        abortPC := AbortPC.notCalled } := by
    refine ⟨rfl, fun _ => rfl, fun hf => ?_, fun hne => ?_, fun hr => ?_⟩
    · simp at hf
    · exact absurd rfl hne
    · simp at hr
  obtain ⟨hcf, hopen, hdone, hcancel, hretn⟩ := oeInv_reachable htrace h0
  have hnr := hretn hret
  obtain ⟨hclosed, hresp⟩ := hdone hnr
  exact ⟨hcancel (by rw [hret]; simp), hclosed, hnr, hresp⟩

/-- C2 witness: a concrete three-step interleaving — cancel, goroutine
completion, receive — after which `Abort` has returned with the channel
closed and the result stored. -/
theorem abort_waits_for_completion_witness :
    ({ oe := taskFinish { oeEx.Execute reqEx with ctxCancelled := true },
       taskRunning := false,
       abortPC := AbortPC.returned } : Conf Unit).oe.ctxCancelled = true ∧
    ({ oe := taskFinish { oeEx.Execute reqEx with ctxCancelled := true },
       taskRunning := false,
       abortPC := AbortPC.returned } : Conf Unit).oe.stopCh
      = ChanState.closedCh ∧
    ({ oe := taskFinish { oeEx.Execute reqEx with ctxCancelled := true },
       taskRunning := false,
       abortPC := AbortPC.returned } : Conf Unit).taskRunning = false ∧
    ({ oe := taskFinish { oeEx.Execute reqEx with ctxCancelled := true },
       taskRunning := false,
       abortPC := AbortPC.returned } : Conf Unit).oe.response.isSome
      = true :=
  abort_waits_for_completion oeEx reqEx
    { oe := taskFinish { oeEx.Execute reqEx with ctxCancelled := true },
      taskRunning := false, abortPC := AbortPC.returned }
    (Relation.ReflTransGen.tail
      (Relation.ReflTransGen.tail
        (Relation.ReflTransGen.single
          (OEStep.abortCancel
            { oe := oeEx.Execute reqEx, taskRunning := true,
              abortPC := AbortPC.notCalled } rfl rfl))
        (OEStep.taskDone
          { oe := { oeEx.Execute reqEx with ctxCancelled := true },
            taskRunning := true, abortPC := AbortPC.waiting } rfl))
      (OEStep.abortReturn
        { oe := taskFinish { oeEx.Execute reqEx with ctxCancelled := true },
          taskRunning := false, abortPC := AbortPC.waiting } rfl rfl))
    rfl
